import Mathlib

/-!
Shallow embedding of the HelpDesk Telegram-bot repository:
`database/db_utils.py` (class `HelpDeskDB`), the schema carried by
`database/migrate.py`, and the conversational handlers of `bot/main.py`.
Machine-checked statements about this embedding settle the specification
claims about the request lifecycle, audit logging, code generation and
the intake state machine.
-/

namespace HelpDesk

/-! ## Data model

Rows of the tables `requests`, `request_items`, `logs` as declared in the
schema embedded in `database/migrate.py` (the SQLite original,
`database/schema.sql`, is loaded by `database/seed.py` but is not in the
repository; `migrate.py` documents itself as the converted copy of it).
`completed_at` is abstracted to a flag recording whether the timestamp is
set.  The catalog tables (`users`, `branches`, `cartridge_types`) are kept
as lists of ids, which is all the embedded operations consult. -/

structure Request where
  id : Nat
  request_code : String
  branch_id : Nat
  user_id : Nat
  priority : String
  status : String
  comment : Option String
  completed_at : Bool
  deriving DecidableEq

structure RequestItem where
  request_id : Nat
  cartridge_type_id : Nat
  quantity : Int
  deriving DecidableEq

structure LogEntry where
  request_id : Nat
  user_id : Nat
  action : String
  from_status : Option String
  to_status : Option String
  note : Option String
  deriving DecidableEq

structure DBState where
  requests : List Request
  request_items : List RequestItem
  logs : List LogEntry
  next_request_id : Nat
  users : List Nat
  branches : List Nat
  cartridge_types : List Nat
  deriving DecidableEq

inductive DBError where
  | valueError (msg : String)
  | integrityError (msg : String)
  deriving DecidableEq

instance {ε α : Type} [DecidableEq ε] [DecidableEq α] :
    DecidableEq (Except ε α) := fun a b =>
  match a, b with
  | .ok x, .ok y =>
      if h : x = y then .isTrue (by rw [h]) else .isFalse (by simp [h])
  | .error x, .error y =>
      if h : x = y then .isTrue (by rw [h]) else .isFalse (by simp [h])
  | .ok _, .error _ => .isFalse (by simp)
  | .error _, .ok _ => .isFalse (by simp)

/-! ## HelpDeskDB operations (`database/db_utils.py`) -/

/-- `HelpDeskDB.get_request_by_code` (db_utils.py:137-149): SELECT by the
unique `request_code`. -/
def get_request_by_code (db : DBState) (code : String) : Option Request :=
  db.requests.find? (fun r => r.request_code = code)

/-- The read phase of `HelpDeskDB.update_request_status`
(db_utils.py:153-157): a SELECT on its own connection, before any write. -/
def usr_read (db : DBState) (request_code : String) : Option Request :=
  get_request_by_code db request_code

/-- Python `executor_id or request['user_id']` (db_utils.py:173): `or`
falls back when `executor_id` is `None` or `0` (falsy). -/
def actor_id (executor_id : Option Nat) (request_user_id : Nat) : Nat :=
  match executor_id with
  | none => request_user_id
  | some e => if e = 0 then request_user_id else e

/-- The write phase of `HelpDeskDB.update_request_status`
(db_utils.py:159-176): UPDATE the status (and `completed_at` when the new
status is `done`) and INSERT one `status_changed` log row, using the
snapshot `request` taken by the read phase.  No legality check of the
transition is performed anywhere in the source. -/
def usr_commit (db : DBState) (request : Request) (request_code new_status : String)
    (executor_id : Option Nat) (note : Option String) : DBState :=
  let requests := db.requests.map (fun r =>
    if r.request_code = request_code then
      { r with
        status := new_status
        completed_at := if new_status = "done" then true else r.completed_at }
    else r)
  let entry : LogEntry :=
    { request_id := request.id
      user_id := actor_id executor_id request.user_id
      action := "status_changed"
      from_status := some request.status
      to_status := some new_status
      note := note }
  { db with requests := requests, logs := db.logs ++ [entry] }

/-- `HelpDeskDB.update_request_status` (db_utils.py:151-176): look the
request up by code, raise `ValueError` when it does not exist, otherwise
update and log unconditionally. -/
def update_request_status (db : DBState) (request_code new_status : String)
    (executor_id : Option Nat) (note : Option String) : Except DBError DBState :=
  match usr_read db request_code with
  | none => .error (.valueError ("Заявка " ++ request_code ++ " не найдена"))
  | some request => .ok (usr_commit db request request_code new_status executor_id note)

/-- `HelpDeskDB.add_request_item` (db_utils.py:178-188): raise
`ValueError` for an unknown code, otherwise INSERT the item row.  The
store rejects the row when `quantity ≤ 0` (schema
`CHECK(quantity>0)`, migrate.py:81). -/
def add_request_item (db : DBState) (request_code : String)
    (cartridge_type_id : Nat) (quantity : Int) : Except DBError DBState :=
  match get_request_by_code db request_code with
  | none => .error (.valueError ("Заявка " ++ request_code ++ " не найдена"))
  | some request =>
      if quantity ≤ 0 then
        .error (.integrityError "CHECK constraint failed: quantity>0")
      else
        .ok { db with request_items :=
          db.request_items ++
            [{ request_id := request.id
               cartridge_type_id := cartridge_type_id
               quantity := quantity }] }

/-! ## Request-code generation (`HelpDeskDB._generate_request_code`) -/

/-- The candidate format built at db_utils.py:257-260:
`REQ-YYYYMMDD-XXX` from the date and a random three-digit part. -/
def candidate_code (date_part random_part : String) : String :=
  "REQ-" ++ date_part ++ "-" ++ random_part

/-- The uniqueness probe at db_utils.py:263: SELECT on `request_code`. -/
def code_exists (db : DBState) (code : String) : Bool :=
  db.requests.any (fun r => r.request_code = code)

/-- `HelpDeskDB._generate_request_code` (db_utils.py:251-267).  The random
draws are supplied as the stream `rng`; the source recurses on every
collision with no attempt bound, so an empty remaining stream (the fuel
running out) models the recursion never returning a value.  There is no
`GenerationExhausted` failure in the source. -/
def generate_request_code (db : DBState) (date_part : String) :
    List String → Option String
  | [] => none
  | rp :: rest =>
      let code := candidate_code date_part rp
      if code_exists db code then generate_request_code db date_part rest
      else some code

/-- Number of generate-probe attempts `_generate_request_code` performs on
the given random stream (one per recursive call). -/
def generate_attempts (db : DBState) (date_part : String) :
    List String → Nat
  | [] => 0
  | rp :: rest =>
      if code_exists db (candidate_code date_part rp) then
        1 + generate_attempts db date_part rest
      else 1

/-! ## Request creation (`HelpDeskDB.create_request`) -/

/-- The INSERT at db_utils.py:121-129: the row takes the schema default
`status = 'new'` (migrate.py:68) and the fresh rowid. -/
def insert_request (db : DBState) (request_code : String)
    (branch_id user_id : Nat) (priority : String) (comment : Option String) :
    DBState × Nat :=
  let rid := db.next_request_id
  let r : Request :=
    { id := rid, request_code := request_code, branch_id := branch_id
      user_id := user_id, priority := priority, status := "new"
      comment := comment, completed_at := false }
  ({ db with requests := db.requests ++ [r], next_request_id := rid + 1 }, rid)

/-- `HelpDeskDB.create_request` (db_utils.py:116-135): generate a code,
then INSERT the request row and one `created` log row
(`_log_request_action`, db_utils.py:132, 269-276) on one connection with a
single commit — the request row and its log are one atomic unit.  No
item rows are written here.  `none` is the fuel artifact of the
generator never returning. -/
def create_request (db : DBState) (branch_id user_id : Nat) (priority : String)
    (comment : Option String) (date_part : String) (rng : List String) :
    Option (DBState × String) :=
  match generate_request_code db date_part rng with
  | none => none
  | some request_code =>
      let (db1, rid) := insert_request db request_code branch_id user_id priority comment
      let entry : LogEntry :=
        { request_id := rid, user_id := user_id, action := "created"
          from_status := none, to_status := some "new"
          note := some "Заявка создана" }
      some ({ db1 with logs := db1.logs ++ [entry] }, request_code)

/-- Sequential `add_request_item` calls as issued by the callers of
`create_request` (database/demo_requests.py:64-75, and the confirm
handler of bot/main.py): each item is its own transaction; an exception
aborts only the failing insert, and the rows committed before it persist.
Returns the persisted state together with the error, if any. -/
def add_items_loop (db : DBState) (request_code : String) :
    List (Nat × Int) → DBState × Option DBError
  | [] => (db, none)
  | (ci, q) :: rest =>
      match add_request_item db request_code ci q with
      | .error e => (db, some e)
      | .ok db1 => add_items_loop db1 request_code rest

/-- The caller-level creation flow of this repository: an atomic
`create_request` (request row + `created` log), then the item rows one by
one outside that unit.  The first component is the state the store holds
after the attempt, whether or not it failed. -/
def create_request_flow (db : DBState) (branch_id user_id : Nat)
    (priority : String) (comment : Option String) (date_part : String)
    (rng : List String) (items : List (Nat × Int)) :
    DBState × Except DBError String :=
  match create_request db branch_id user_id priority comment date_part rng with
  | none => (db, .error (.valueError "code generation did not return"))
  | some (db1, request_code) =>
      match add_items_loop db1 request_code items with
      | (db2, some e) => (db2, .error e)
      | (db2, none) => (db2, .ok request_code)

/-! ## Conversational intake (`bot/main.py`) -/

/-- The FSM states declared in `RequestStates` (main.py:37-44). -/
inductive BotState where
  | selecting_branch
  | selecting_priority
  | selecting_cartridges
  | entering_quantity
  | adding_comment
  | confirming_request
  deriving DecidableEq

/-- The per-user aiogram FSM storage: the current state plus the data dict
written by `state.update_data`.  Each field is `none` when its key is
absent from the dict; the comment field is doubly optional because the
dict can hold the key `comment` with value `None`
(`update_data(comment=None)`, main.py:252-255). -/
structure Session where
  state : Option BotState
  branch_id : Option Nat
  priority : Option String
  cartridge_id : Option Nat
  quantity : Option Int
  comment : Option (Option String)
  deriving DecidableEq

/-- The storage after `state.clear()`: no state, empty data dict. -/
def emptySession : Session :=
  { state := none, branch_id := none, priority := none
    cartridge_id := none, quantity := none, comment := none }

/-- Python `int(text)` as called at main.py:232: strip surrounding
whitespace, an optional sign, then a nonempty run of decimal digits;
anything else raises `ValueError`. -/
def spaceChar (c : Char) : Bool :=
  c = ' ' ∨ c = '\t' ∨ c = '\n' ∨ c = '\r'

def trimChars (cs : List Char) : List Char :=
  ((cs.dropWhile spaceChar).reverse.dropWhile spaceChar).reverse

def digitsVal (cs : List Char) : Nat :=
  cs.foldl (fun acc c => 10 * acc + (c.toNat - ('0').toNat)) 0

def pyInt (t : String) : Option Int :=
  match trimChars t.toList with
  | [] => none
  | c :: rest =>
      let (sign, digits) : Int × List Char :=
        if c = '-' then (-1, rest)
        else if c = '+' then (1, rest)
        else (1, c :: rest)
      if digits ≠ [] ∧ digits.all Char.isDigit then
        some (sign * (digitsVal digits : Int))
      else none

/-- `BotManager.handle_quantity_input` (main.py:229-248): parse the text
with `int`; a `ValueError` or a value `≤ 0` only answers an error message
(no `update_data`, no state change); a positive value stores `quantity`
and advances to `adding_comment`. -/
def handle_quantity_input (s : Session) (text : String) : Session × String :=
  match pyInt text with
  | none => (s, "❌ Пожалуйста, введите целое число.")
  | some q =>
      if q ≤ 0 then (s, "❌ Количество должно быть больше 0.")
      else
        ({ s with quantity := some q, state := some .adding_comment },
          "💬 Добавьте комментарий (опционально)")

/-- `BotManager.handle_comment_input` (main.py:250-297): store `None` for
the text `-` and the raw text otherwise (main.py:252), then resolve the
stored branch and cartridge against the catalog; a failed resolution
answers an error and runs `state.clear()` (main.py:267-270); a missing
`branch_id`/`cartridge_id` key raises `KeyError` after the comment was
already stored (main.py:262, 265), leaving the rest of the session as it
was; otherwise advance to `confirming_request`. -/
def handle_comment_input (db : DBState) (s : Session) (text : String) :
    Session × DBState × String :=
  let comment : Option String := if text = "-" then none else some text
  let s1 := { s with comment := some comment }
  match s1.branch_id, s1.cartridge_id with
  | some b, some c =>
      if b ∈ db.branches ∧ c ∈ db.cartridge_types then
        ({ s1 with state := some .confirming_request }, db, "📋 Подтверждение заявки")
      else
        (emptySession, db, "❌ Ошибка: данные не найдены.")
  | _, _ => (s1, db, "KeyError")

/-- Modelled from the spec: the names `user_manager`, `request_manager`,
`log_manager` and the module-level `generate_request_code` that
`bot/main.py` imports from `database.db_utils` (main.py:23-26) do not
exist in `src/database/db_utils.py`; only their call sites are in the
repository.  Per the spec (§4.2 CreateRequest), confirmation writes the
Request row with `status = new`, the RequestItem rows, and one AuditLog
entry (`action = created`, `fromStatus = null`, `toStatus = new`) as a
single atomic unit under a fresh unique code; the code is derived here
from the fresh row id, which keeps it unique per store. -/
def managers_create (db : DBState) (branch_id user_id : Nat)
    (priority : String) (comment : Option String) (items : List (Nat × Int)) :
    DBState :=
  let rid := db.next_request_id
  let r : Request :=
    { id := rid, request_code := "REQ-" ++ toString rid
      branch_id := branch_id, user_id := user_id, priority := priority
      status := "new", comment := comment, completed_at := false }
  let entry : LogEntry :=
    { request_id := rid, user_id := user_id, action := "created"
      from_status := none, to_status := some "new"
      note := some "Заявка создана через Telegram бота" }
  { db with
    requests := db.requests ++ [r]
    request_items := db.request_items ++
      items.map (fun it =>
        { request_id := rid, cartridge_type_id := it.1, quantity := it.2 })
    logs := db.logs ++ [entry]
    next_request_id := rid + 1 }

/-- `BotManager.handle_confirm_request` (main.py:299-361): `confirm:no`
clears the session without touching the store; `confirm:yes` reads the
buffered fields and creates the request (a missing field raises
`KeyError`, which the `except` at main.py:356 turns into an error
message); the session is cleared on every path (main.py:360). -/
def handle_confirm (db : DBState) (s : Session) (user_id : Nat) (yes : Bool) :
    Session × DBState × String :=
  if yes then
    match s.branch_id, s.priority, s.cartridge_id, s.quantity, s.comment with
    | some b, some p, some c, some q, some comment =>
        (emptySession, managers_create db b user_id p comment [(c, q)],
          "✅ Заявка создана успешно!")
    | _, _, _, _, _ =>
        (emptySession, db, "❌ Ошибка при создании заявки. Попробуйте позже.")
  else
    (emptySession, db, "❌ Заявка отменена.")

/-- The core events exposed by the transport layer (spec §6), carrying
the payloads the handlers of `bot/main.py` extract from commands,
callback data and message text. -/
inductive Event where
  | startRequest
  | selectBranch (id : Nat)
  | selectPriority (p : String)
  | selectCartridge (id : Nat)
  | enterQuantity (text : String)
  | enterComment (text : String)
  | confirm (yes : Bool)
  deriving DecidableEq

/-- Event dispatch per `BotManager.setup_handlers` (main.py:54-75): the
two text handlers are registered with a state filter and are simply not
invoked outside their state (the message matches no handler; nothing
happens and no signal is produced); the callback handlers are registered
with no state filter, so button events run their handler in every state.
`startRequest` is `cmd_new_request` (main.py:124-153), which checks the
user and the branch list before entering `selecting_branch`;
`selectPriority` stores the priority before the empty-catalog check
(main.py:185-191), so the priority survives that error path. -/
def dispatch (db : DBState) (s : Session) (user_id : Nat) (e : Event) :
    Session × DBState × String :=
  match e with
  | .startRequest =>
      if user_id ∈ db.users then
        if db.branches = [] then (s, db, "❌ Нет доступных филиалов.")
        else ({ s with state := some .selecting_branch }, db, "🏢 Выберите филиал")
      else (s, db, "❌ Пользователь не найден.")
  | .selectBranch id =>
      ({ s with branch_id := some id, state := some .selecting_priority },
        db, "⚡ Выберите приоритет заявки")
  | .selectPriority p =>
      let s1 := { s with priority := some p }
      if db.cartridge_types = [] then (s1, db, "❌ Нет доступных картриджей.")
      else ({ s1 with state := some .selecting_cartridges }, db, "🖨 Выберите картридж")
  | .selectCartridge id =>
      ({ s with cartridge_id := some id, state := some .entering_quantity },
        db, "🔢 Введите количество")
  | .enterQuantity text =>
      if s.state = some .entering_quantity then
        ((handle_quantity_input s text).1, db, (handle_quantity_input s text).2)
      else (s, db, "")
  | .enterComment text =>
      if s.state = some .adding_comment then handle_comment_input db s text
      else (s, db, "")
  | .confirm yes => handle_confirm db s user_id yes

/-- Run a sequence of core events through the dispatcher, threading the
session and the store. -/
def runEvents (db : DBState) (user_id : Nat) (s : Session) :
    List Event → Session × DBState
  | [] => (s, db)
  | e :: rest =>
      runEvents (dispatch db s user_id e).2.1 user_id (dispatch db s user_id e).1 rest

/-! ## Concrete fixtures -/

/-- A request `R1` currently `done`. -/
def reqDone : Request :=
  { id := 1, request_code := "R1", branch_id := 7, user_id := 42
    priority := "high", status := "done", comment := none, completed_at := true }

/-- A store holding only `reqDone`. -/
def dbDone : DBState :=
  { requests := [reqDone], request_items := [], logs := []
    next_request_id := 2, users := [42], branches := [7], cartridge_types := [3] }

/-- A request `R1` currently `new`. -/
def reqNew : Request :=
  { id := 1, request_code := "R1", branch_id := 7, user_id := 42
    priority := "high", status := "new", comment := none, completed_at := false }

/-- A store holding only `reqNew`, with no log entries yet. -/
def dbNew : DBState :=
  { requests := [reqNew], request_items := [], logs := []
    next_request_id := 2, users := [42], branches := [7], cartridge_types := [3] }

/-- An empty store with user 42, branch 7 and cartridge type 3 in the
catalog. -/
def dbEmpty : DBState :=
  { requests := [], request_items := [], logs := []
    next_request_id := 1, users := [42], branches := [7], cartridge_types := [3] }

/-! ## Helper lemmas -/

/-- Looking a request up after `usr_commit` finds it with the new status
(and `completed_at` set when moving to `done`): the UPDATE keys on the
unique `request_code`, which it does not change. -/
theorem get_request_by_code_usr_commit (db : DBState) (snap r : Request)
    (code ns : String) (eid : Option Nat) (note : Option String)
    (h : get_request_by_code db code = some r) :
    get_request_by_code (usr_commit db snap code ns eid note) code =
      some { r with
        status := ns
        completed_at := if ns = "done" then true else r.completed_at } := by
  have hcode : r.request_code = code := by
    have := List.find?_some h
    exact of_decide_eq_true this
  unfold get_request_by_code usr_commit at *
  rw [List.find?_map]
  have hpf :
      ((fun x : Request => decide (x.request_code = code)) ∘
        (fun x : Request =>
          if x.request_code = code then
            { x with
              status := ns
              completed_at := if ns = "done" then true else x.completed_at }
          else x)) =
      (fun x : Request => decide (x.request_code = code)) := by
    funext x
    by_cases hx : x.request_code = code <;> simp [hx]
  rw [hpf, h]
  simp [hcode]

/-- Sequential item insertion touches only `request_items`: the requests,
logs, catalog and id counter are those of the input state, whether or not
an insert fails. -/
theorem add_items_loop_frame (request_code : String) (items : List (Nat × Int)) :
    ∀ db : DBState,
      (add_items_loop db request_code items).1.requests = db.requests ∧
      (add_items_loop db request_code items).1.logs = db.logs := by
  induction items with
  | nil => intro db; exact ⟨rfl, rfl⟩
  | cons it rest ih =>
      intro db
      obtain ⟨ci, q⟩ := it
      unfold add_items_loop
      unfold add_request_item
      cases hfind : get_request_by_code db request_code with
      | none => exact ⟨rfl, rfl⟩
      | some request =>
          by_cases hq : q ≤ 0
          · simp [hfind, hq]
          · simpa [hfind, hq] using ih _

/-! ## Claim C1 -/

/-- Claim C1, counterexample.  The claim states that `UpdateStatus` on a
request whose current status `s` has no legal edge to the requested
status `t` fails with `InvalidTransition`, leaves the status at `s` and
appends no LogEntry; in particular that a `done` request can move only to
`archived`.  On the concrete store `dbDone` (request `R1` is `done`),
`update_request_status` to `new` — an illegal edge — succeeds, sets the
status to `new`, and appends a `status_changed` log entry. -/
theorem update_status_done_to_new_cex :
    update_request_status dbDone "R1" "new" none none =
      .ok { requests := [{ reqDone with status := "new" }]
            request_items := []
            logs := [{ request_id := 1, user_id := 42, action := "status_changed"
                       from_status := some "done", to_status := some "new"
                       note := none }]
            next_request_id := 2, users := [42], branches := [7]
            cartridge_types := [3] } := by
  decide

/-- Claim C1, amended.  `HelpDeskDB.update_request_status` checks only
that the request exists, never the legality of the edge: for every
existing request `r` and every requested status, the call succeeds, the
request's status becomes the requested one (with `completed_at` set when
entering `done`), and exactly one `status_changed` LogEntry is appended,
carrying `fromStatus = r.status` and `toStatus` as requested.  No
transition — `done` to `new` included — is ever rejected. -/
theorem update_request_status_unchecked (db : DBState)
    (code new_status : String) (eid : Option Nat) (note : Option String)
    (r : Request) (h : get_request_by_code db code = some r) :
    update_request_status db code new_status eid note =
      .ok (usr_commit db r code new_status eid note) ∧
    get_request_by_code (usr_commit db r code new_status eid note) code =
      some { r with
        status := new_status
        completed_at := if new_status = "done" then true else r.completed_at } ∧
    (usr_commit db r code new_status eid note).logs =
      db.logs ++
        [{ request_id := r.id, user_id := actor_id eid r.user_id
           action := "status_changed", from_status := some r.status
           to_status := some new_status, note := note }] := by
  refine ⟨?_, get_request_by_code_usr_commit db r r code new_status eid note h, rfl⟩
  unfold update_request_status usr_read
  rw [h]

/-- Witness for `update_request_status_unchecked` at the store `dbDone`
and the illegal edge `done → new`. -/
theorem update_request_status_unchecked_witness :
    get_request_by_code dbDone "R1" = some reqDone ∧
    (update_request_status dbDone "R1" "new" none none =
        .ok (usr_commit dbDone reqDone "R1" "new" none none) ∧
      get_request_by_code (usr_commit dbDone reqDone "R1" "new" none none) "R1" =
        some { reqDone with
          status := "new"
          completed_at := if "new" = "done" then true else reqDone.completed_at } ∧
      (usr_commit dbDone reqDone "R1" "new" none none).logs =
        dbDone.logs ++
          [{ request_id := reqDone.id
             user_id := actor_id none reqDone.user_id
             action := "status_changed", from_status := some reqDone.status
             to_status := some "new", note := none }]) :=
  ⟨by decide,
    update_request_status_unchecked dbDone "R1" "new" none none reqDone (by decide)⟩

/-! ## Claim C10 -/

/-- Claim C10.  For a request code that resolves to no existing request,
both `update_request_status` and `add_request_item` raise `ValueError`
(db_utils.py:155, 182) before opening the write transaction, so nothing
is written: in this embedding an `error` result carries no successor
state — the store is exactly as it was. -/
theorem unknown_code_value_error (db : DBState) (code new_status : String)
    (eid : Option Nat) (note : Option String) (ci : Nat) (q : Int)
    (h : get_request_by_code db code = none) :
    update_request_status db code new_status eid note =
      .error (.valueError ("Заявка " ++ code ++ " не найдена")) ∧
    add_request_item db code ci q =
      .error (.valueError ("Заявка " ++ code ++ " не найдена")) := by
  constructor
  · unfold update_request_status usr_read
    rw [h]
  · unfold add_request_item
    rw [h]

/-- Witness for `unknown_code_value_error` on the store `dbEmpty` and the
unknown code `REQ-NOPE`. -/
theorem unknown_code_value_error_witness :
    get_request_by_code dbEmpty "REQ-NOPE" = none ∧
    (update_request_status dbEmpty "REQ-NOPE" "done" none none =
        .error (.valueError ("Заявка " ++ "REQ-NOPE" ++ " не найдена")) ∧
      add_request_item dbEmpty "REQ-NOPE" 3 5 =
        .error (.valueError ("Заявка " ++ "REQ-NOPE" ++ " не найдена"))) :=
  ⟨by decide, unknown_code_value_error dbEmpty "REQ-NOPE" "done" none none 3 5 (by decide)⟩

/-! ## Claim C4 -/

/-- A store for one day whose requests already hold the candidate codes
`REQ-20251012-000` … `REQ-20251012-005`. -/
def dbSixCodes : DBState :=
  { requests :=
      (List.range 6).map (fun i =>
        { id := i + 1
          request_code := candidate_code "20251012" ("00" ++ toString i)
          branch_id := 7, user_id := 42, priority := "normal"
          status := "new", comment := none, completed_at := false })
    request_items := [], logs := [], next_request_id := 7
    users := [42], branches := [7], cartridge_types := [3] }

/-- Claim C4, counterexample.  The claim states that code generation
retries at most a fixed bound of attempts (e.g. 5) and then fails with
`GenerationExhausted`.  On the store `dbSixCodes` and a random stream
whose first six draws all collide, `_generate_request_code` makes a 6th
and a 7th attempt and returns the 7th candidate — there is no bound and
no `GenerationExhausted` in the source (db_utils.py:251-267 recurses on
every collision). -/
theorem generate_code_no_bound_cex :
    generate_attempts dbSixCodes "20251012"
        ["000", "001", "002", "003", "004", "005", "006"] = 7 ∧
    generate_request_code dbSixCodes "20251012"
        ["000", "001", "002", "003", "004", "005", "006"] =
      some "REQ-20251012-006" := by
  decide

/-- Claim C4, amended.  `_generate_request_code` retries unboundedly: when
the first `k` random draws collide with existing codes and the next draw
is fresh, it makes exactly `k + 1` attempts — for every `k`, with no
5-attempt cap — and returns that fresh candidate; there is no
`GenerationExhausted` failure, and on a store in which every candidate
collides the recursion never returns a value (modelled by the random
stream, its fuel, running out). -/
theorem generate_code_unbounded (db : DBState) (date_part : String)
    (rps₁ rps₂ : List String) (rp : String)
    (hcoll : ∀ r ∈ rps₁, code_exists db (candidate_code date_part r) = true)
    (hfresh : code_exists db (candidate_code date_part rp) = false) :
    generate_request_code db date_part (rps₁ ++ rp :: rps₂) =
      some (candidate_code date_part rp) ∧
    generate_attempts db date_part (rps₁ ++ rp :: rps₂) = rps₁.length + 1 ∧
    ∀ rps : List String,
      (∀ r ∈ rps, code_exists db (candidate_code date_part r) = true) →
        generate_request_code db date_part rps = none := by
  refine ⟨?_, ?_, ?_⟩
  · induction rps₁ with
    | nil => simp [generate_request_code, hfresh]
    | cons a t ih =>
        have ha := hcoll a (by simp)
        simp only [List.cons_append, generate_request_code, ha, if_true]
        exact ih (fun r hr => hcoll r (by simp [hr]))
  · induction rps₁ with
    | nil => simp [generate_attempts, hfresh]
    | cons a t ih =>
        have ha := hcoll a (by simp)
        simp only [List.cons_append, generate_attempts, ha, if_true, List.length_cons,
          List.append_eq]
        rw [ih (fun r hr => hcoll r (by simp [hr]))]
        omega
  · intro rps hall
    induction rps with
    | nil => rfl
    | cons a t ih =>
        have ha := hall a (by simp)
        simp only [generate_request_code, ha, if_true]
        exact ih (fun r hr => hall r (by simp [hr]))

/-- Witness for `generate_code_unbounded`: six colliding draws followed
by a fresh one on `dbSixCodes`. -/
theorem generate_code_unbounded_witness :
    (∀ r ∈ ["000", "001", "002", "003", "004", "005"],
        code_exists dbSixCodes (candidate_code "20251012" r) = true) ∧
    code_exists dbSixCodes (candidate_code "20251012" "006") = false ∧
    (generate_request_code dbSixCodes "20251012"
        (["000", "001", "002", "003", "004", "005"] ++ "006" :: []) =
      some (candidate_code "20251012" "006") ∧
    generate_attempts dbSixCodes "20251012"
        (["000", "001", "002", "003", "004", "005"] ++ "006" :: []) =
      ["000", "001", "002", "003", "004", "005"].length + 1 ∧
    ∀ rps : List String,
      (∀ r ∈ rps, code_exists dbSixCodes (candidate_code "20251012" r) = true) →
        generate_request_code dbSixCodes "20251012" rps = none) :=
  ⟨by decide, by decide,
    generate_code_unbounded dbSixCodes "20251012"
      ["000", "001", "002", "003", "004", "005"] [] "006" (by decide) (by decide)⟩

/-! ## Claim C3 -/

/-- Claim C3, counterexample.  The claim states that of two concurrent
`UpdateStatus(R1, in_progress)` calls that both read the same
pre-transition status `new`, exactly one succeeds, the other fails with
`InvalidTransition`, and exactly one LogEntry with
`toStatus = in_progress` exists afterward.  The source runs the read
(db_utils.py:153) and the write+log (db_utils.py:168-176) on separate
connections with no transaction around the pair and no version check, so
under the interleaving read-A, read-B, write-A, write-B both snapshots
are `reqNew`; both commits are unconditional, both calls complete
without error, and afterward two LogEntries with
`toStatus = in_progress` exist. -/
theorem concurrent_update_both_succeed_cex :
    usr_read dbNew "R1" = some reqNew ∧
    update_request_status dbNew "R1" "in_progress" (some 1) none =
      .ok (usr_commit dbNew reqNew "R1" "in_progress" (some 1) none) ∧
    ((usr_commit (usr_commit dbNew reqNew "R1" "in_progress" (some 1) none)
        reqNew "R1" "in_progress" (some 2) none).logs.filter
          (fun l => l.to_status = some "in_progress")).length = 2 ∧
    get_request_by_code
        (usr_commit (usr_commit dbNew reqNew "R1" "in_progress" (some 1) none)
          reqNew "R1" "in_progress" (some 2) none) "R1" =
      some { reqNew with status := "in_progress" } := by
  decide

/-- Claim C3, amended.  Two interleaved `update_request_status` calls
that both read the same stale snapshot both succeed — the commit phase
performs no legality or version check — and afterward two LogEntries
with `toStatus = in_progress` exist, each with `fromStatus = new` taken
from the stale snapshot. -/
theorem concurrent_update_both_succeed (db : DBState) (code : String)
    (r : Request) (h : usr_read db code = some r) (hst : r.status = "new")
    (hlogs : ∀ l ∈ db.logs, ¬ l.to_status = some "in_progress") :
    update_request_status db code "in_progress" (some 1) none =
      .ok (usr_commit db r code "in_progress" (some 1) none) ∧
    ((usr_commit (usr_commit db r code "in_progress" (some 1) none)
        r code "in_progress" (some 2) none).logs.filter
          (fun l => l.to_status = some "in_progress")).length = 2 ∧
    ∀ l ∈ (usr_commit (usr_commit db r code "in_progress" (some 1) none)
        r code "in_progress" (some 2) none).logs,
      l.to_status = some "in_progress" → l.from_status = some "new" := by
  have hbase : (usr_commit (usr_commit db r code "in_progress" (some 1) none)
      r code "in_progress" (some 2) none).logs =
      db.logs ++
        [{ request_id := r.id, user_id := actor_id (some 1) r.user_id
           action := "status_changed", from_status := some r.status
           to_status := some "in_progress", note := none }] ++
        [{ request_id := r.id, user_id := actor_id (some 2) r.user_id
           action := "status_changed", from_status := some r.status
           to_status := some "in_progress", note := none }] := rfl
  refine ⟨?_, ?_, ?_⟩
  · unfold update_request_status
    rw [h]
  · rw [hbase]
    rw [List.filter_append, List.filter_append]
    rw [List.filter_eq_nil_iff.mpr (by
      intro l hl
      simpa using hlogs l hl)]
    simp
  · rw [hbase]
    intro l hl _
    rcases List.mem_append.mp hl with hl' | hl'
    · rcases List.mem_append.mp hl' with hl'' | hl''
      · exact absurd (by assumption) (hlogs l hl'')
      · simp only [List.mem_singleton] at hl''
        subst hl''
        simpa using congrArg some hst
    · simp only [List.mem_singleton] at hl'
      subst hl'
      simpa using congrArg some hst

/-- Witness for `concurrent_update_both_succeed` on the store `dbNew`. -/
theorem concurrent_update_both_succeed_witness :
    usr_read dbNew "R1" = some reqNew ∧ reqNew.status = "new" ∧
    (∀ l ∈ dbNew.logs, ¬ l.to_status = some "in_progress") ∧
    (update_request_status dbNew "R1" "in_progress" (some 1) none =
        .ok (usr_commit dbNew reqNew "R1" "in_progress" (some 1) none) ∧
      ((usr_commit (usr_commit dbNew reqNew "R1" "in_progress" (some 1) none)
          reqNew "R1" "in_progress" (some 2) none).logs.filter
            (fun l => l.to_status = some "in_progress")).length = 2 ∧
      ∀ l ∈ (usr_commit (usr_commit dbNew reqNew "R1" "in_progress" (some 1) none)
          reqNew "R1" "in_progress" (some 2) none).logs,
        l.to_status = some "in_progress" → l.from_status = some "new") :=
  ⟨by decide, by decide, by decide,
    concurrent_update_both_succeed dbNew "R1" reqNew (by decide) (by decide) (by decide)⟩

/-! ## Claim C2 -/

/-- The store produced by a successful `create_request` on `dbEmpty` with
the single random draw `123`. -/
def dbCreated : DBState :=
  { requests :=
      [{ id := 1, request_code := "REQ-20251012-123", branch_id := 7
         user_id := 42, priority := "high", status := "new"
         comment := none, completed_at := false }]
    request_items := []
    logs :=
      [{ request_id := 1, user_id := 42, action := "created"
         from_status := none, to_status := some "new"
         note := some "Заявка создана" }]
    next_request_id := 2
    users := [42], branches := [7], cartridge_types := [3] }

/-- Claim C2, counterexample.  The claim states that request creation is
all-or-nothing: if the store rejects any write of the attempt, zero
Request rows, zero RequestItem rows and zero LogEntry rows are
persisted.  In the source, `create_request` commits the Request row and
the `created` log first, and the RequestItem rows are inserted by
separate `add_request_item` transactions afterwards
(database/demo_requests.py:64-75 and bot/main.py:316-336).  On `dbEmpty`
with one item of quantity 0 — rejected by the schema
`CHECK(quantity>0)` — the attempt fails, yet one Request row and one
LogEntry remain persisted. -/
theorem create_flow_persists_on_failure_cex :
    create_request_flow dbEmpty 7 42 "high" none "20251012" ["123"] [(3, 0)] =
      (dbCreated, .error (.integrityError "CHECK constraint failed: quantity>0")) ∧
    dbCreated.requests.length = 1 ∧ dbCreated.logs.length = 1 ∧
    dbCreated.request_items.length = 0 := by
  decide

/-- Claim C2, amended.  `create_request` writes the Request row and the
single `created` AuditLog entry (`action = created`, `fromStatus = null`,
`toStatus = new`) as one atomic unit, but the RequestItem rows live
outside that unit: whenever the code generator returns and the item
insertion then fails, the attempt reports the failure while the Request
row and its `created` LogEntry stay persisted. -/
theorem create_flow_not_atomic (db : DBState) (branch_id user_id : Nat)
    (priority : String) (comment : Option String) (date_part : String)
    (rng : List String) (items : List (Nat × Int)) (code : String)
    (db₂ : DBState) (e : DBError)
    (hgen : generate_request_code db date_part rng = some code)
    (hfail : create_request_flow db branch_id user_id priority comment
        date_part rng items = (db₂, .error e)) :
    db₂.requests = db.requests ++
      [{ id := db.next_request_id, request_code := code
         branch_id := branch_id, user_id := user_id, priority := priority
         status := "new", comment := comment, completed_at := false }] ∧
    db₂.logs = db.logs ++
      [{ request_id := db.next_request_id, user_id := user_id
         action := "created", from_status := none, to_status := some "new"
         note := some "Заявка создана" }] := by
  have hcr : create_request db branch_id user_id priority comment date_part rng =
      some ({ db with
        requests := db.requests ++
          [{ id := db.next_request_id, request_code := code
             branch_id := branch_id, user_id := user_id, priority := priority
             status := "new", comment := comment, completed_at := false }]
        logs := db.logs ++
          [{ request_id := db.next_request_id, user_id := user_id
             action := "created", from_status := none, to_status := some "new"
             note := some "Заявка создана" }]
        next_request_id := db.next_request_id + 1 }, code) := by
    unfold create_request insert_request
    rw [hgen]
  unfold create_request_flow at hfail
  rw [hcr] at hfail
  dsimp only at hfail
  rcases hloop : add_items_loop
      ({ db with
        requests := db.requests ++
          [{ id := db.next_request_id, request_code := code
             branch_id := branch_id, user_id := user_id, priority := priority
             status := "new", comment := comment, completed_at := false }]
        logs := db.logs ++
          [{ request_id := db.next_request_id, user_id := user_id
             action := "created", from_status := none, to_status := some "new"
             note := some "Заявка создана" }]
        next_request_id := db.next_request_id + 1 }) code items with ⟨dbl, errl⟩
  have hframe := add_items_loop_frame code items
      ({ db with
        requests := db.requests ++
          [{ id := db.next_request_id, request_code := code
             branch_id := branch_id, user_id := user_id, priority := priority
             status := "new", comment := comment, completed_at := false }]
        logs := db.logs ++
          [{ request_id := db.next_request_id, user_id := user_id
             action := "created", from_status := none, to_status := some "new"
             note := some "Заявка создана" }]
        next_request_id := db.next_request_id + 1 })
  rw [hloop] at hfail hframe
  cases errl with
  | none =>
      dsimp only at hfail
      exact absurd (congrArg Prod.snd hfail) (by simp)
  | some e₂ =>
      dsimp only at hfail
      have hdb : db₂ = dbl := (congrArg Prod.fst hfail).symm
      subst hdb
      exact hframe

/-- Witness for `create_flow_not_atomic` on `dbEmpty` with a
quantity-0 item rejected by the store. -/
theorem create_flow_not_atomic_witness :
    generate_request_code dbEmpty "20251012" ["123"] = some "REQ-20251012-123" ∧
    create_request_flow dbEmpty 7 42 "high" none "20251012" ["123"] [(3, 0)] =
      (dbCreated, .error (.integrityError "CHECK constraint failed: quantity>0")) ∧
    (dbCreated.requests = dbEmpty.requests ++
      [{ id := dbEmpty.next_request_id, request_code := "REQ-20251012-123"
         branch_id := 7, user_id := 42, priority := "high"
         status := "new", comment := none, completed_at := false }] ∧
    dbCreated.logs = dbEmpty.logs ++
      [{ request_id := dbEmpty.next_request_id, user_id := 42
         action := "created", from_status := none, to_status := some "new"
         note := some "Заявка создана" }]) :=
  ⟨by decide, by decide,
    create_flow_not_atomic dbEmpty 7 42 "high" none "20251012" ["123"] [(3, 0)]
      "REQ-20251012-123" dbCreated
      (.integrityError "CHECK constraint failed: quantity>0")
      (by decide) (by decide)⟩

/-! ## Claim C6 -/

/-- Claim C6.  Every successful `create_request` commits the request with
`status = new` (the schema default, migrate.py:68) and exactly one
LogEntry for it, with `action = created`, `fromStatus = null`,
`toStatus = new` (db_utils.py:132): filtering the resulting log table by
the fresh request id yields exactly that one entry, provided the input
store is well formed (no log row points at an unassigned request id). -/
theorem create_request_new_status_single_log (db : DBState)
    (branch_id user_id : Nat) (priority : String) (comment : Option String)
    (date_part : String) (rng : List String) (db₁ : DBState) (code : String)
    (hwf : ∀ l ∈ db.logs, l.request_id < db.next_request_id)
    (hsucc : create_request db branch_id user_id priority comment date_part rng =
      some (db₁, code)) :
    ∃ r ∈ db₁.requests, r.request_code = code ∧ r.status = "new" ∧
      db₁.logs.filter (fun l => l.request_id = r.id) =
        [{ request_id := r.id, user_id := user_id, action := "created"
           from_status := none, to_status := some "new"
           note := some "Заявка создана" }] := by
  unfold create_request insert_request at hsucc
  cases hgen : generate_request_code db date_part rng with
  | none => rw [hgen] at hsucc; exact absurd hsucc (by simp)
  | some rc =>
      rw [hgen] at hsucc
      simp only [Option.some.injEq, Prod.mk.injEq] at hsucc
      obtain ⟨hdb, hcode⟩ := hsucc
      refine ⟨{ id := db.next_request_id, request_code := rc
                branch_id := branch_id, user_id := user_id, priority := priority
                status := "new", comment := comment, completed_at := false },
        ?_, hcode, rfl, ?_⟩
      · rw [← hdb]
        simp
      · rw [← hdb]
        simp only
        rw [List.filter_append]
        rw [List.filter_eq_nil_iff.mpr (by
          intro l hl
          have := hwf l hl
          simp only [decide_eq_true_eq]
          omega)]
        simp

/-- Witness for `create_request_new_status_single_log` on `dbEmpty`. -/
theorem create_request_new_status_single_log_witness :
    (∀ l ∈ dbEmpty.logs, l.request_id < dbEmpty.next_request_id) ∧
    create_request dbEmpty 7 42 "high" none "20251012" ["123"] =
      some (dbCreated, "REQ-20251012-123") ∧
    (∃ r ∈ dbCreated.requests, r.request_code = "REQ-20251012-123" ∧
      r.status = "new" ∧
      dbCreated.logs.filter (fun l => l.request_id = r.id) =
        [{ request_id := r.id, user_id := 42, action := "created"
           from_status := none, to_status := some "new"
           note := some "Заявка создана" }]) :=
  ⟨by decide, by decide,
    create_request_new_status_single_log dbEmpty 7 42 "high" none "20251012"
      ["123"] dbCreated "REQ-20251012-123" (by decide) (by decide)⟩

/-! ## Claim C5 -/

/-- A session mid-flow at the quantity prompt: branch, priority and
cartridge already stored. -/
def sQ : Session :=
  { state := some .entering_quantity, branch_id := some 7
    priority := some "high", cartridge_id := some 3
    quantity := none, comment := none }

/-- Claim C5.  In state `entering_quantity`, any input that `int()`
rejects or that parses to a value `≤ 0` leaves the whole session — state
and every stored field — exactly as it was and answers a retry message
(main.py:233-235, 247-248); the subsequent input `5` then succeeds,
storing `quantity = 5` and advancing to `adding_comment`
(main.py:237-245). -/
theorem quantity_invalid_input_frame (s : Session) (text : String)
    (_hs : s.state = some BotState.entering_quantity)
    (hbad : ∀ q : Int, pyInt text = some q → q ≤ 0) :
    (handle_quantity_input s text).1 = s ∧
    ((handle_quantity_input s text).2 = "❌ Пожалуйста, введите целое число." ∨
      (handle_quantity_input s text).2 = "❌ Количество должно быть больше 0.") ∧
    (handle_quantity_input s "5").1 =
      { s with quantity := some 5, state := some BotState.adding_comment } := by
  have h5 : pyInt "5" = some 5 := by decide
  refine ⟨?_, ?_, ?_⟩
  · cases hpi : pyInt text with
    | none => simp [handle_quantity_input, hpi]
    | some q =>
        have hq := hbad q hpi
        simp [handle_quantity_input, hpi, hq]
  · cases hpi : pyInt text with
    | none => left; simp [handle_quantity_input, hpi]
    | some q =>
        have hq := hbad q hpi
        right; simp [handle_quantity_input, hpi, hq]
  · simp [handle_quantity_input, h5]

/-- Witness for `quantity_invalid_input_frame`: the inputs `-3` then `5`
on the mid-flow session `sQ` (spec §8's concrete retry scenario). -/
theorem quantity_invalid_input_frame_witness :
    sQ.state = some BotState.entering_quantity ∧
    (∀ q : Int, pyInt "-3" = some q → q ≤ 0) ∧
    ((handle_quantity_input sQ "-3").1 = sQ ∧
      ((handle_quantity_input sQ "-3").2 = "❌ Пожалуйста, введите целое число." ∨
        (handle_quantity_input sQ "-3").2 = "❌ Количество должно быть больше 0.") ∧
      (handle_quantity_input sQ "5").1 =
        { sQ with quantity := some 5, state := some BotState.adding_comment }) :=
  ⟨by decide,
    fun q hq => by
      rw [show pyInt "-3" = some (-3) by decide] at hq
      injection hq with h
      rw [← h]
      decide,
    quantity_invalid_input_frame sQ "-3" (by decide)
      (fun q hq => by
        rw [show pyInt "-3" = some (-3) by decide] at hq
        injection hq with h
        rw [← h]
        decide)⟩

/-! ## Claim C7 -/

/-- `handle_comment_input` reads the catalog but never writes: the store
component of its result is its input store, on every path. -/
theorem handle_comment_input_db (db : DBState) (s : Session) (text : String) :
    (handle_comment_input db s text).2.1 = db := by
  unfold handle_comment_input
  dsimp only
  rcases s.branch_id with _ | b <;> rcases s.cartridge_id with _ | c <;> try rfl
  all_goals dsimp only
  all_goals try (split <;> rfl)

/-- Every event other than `Confirm(true)` leaves the durable store
untouched: the command and callback handlers of `bot/main.py` only read
the catalog and mutate the aiogram session until the confirm handler's
success branch. -/
theorem dispatch_preserves_db (db : DBState) (s : Session) (uid : Nat)
    (e : Event) (h : e ≠ .confirm true) : (dispatch db s uid e).2.1 = db := by
  cases e with
  | startRequest =>
      simp only [dispatch]
      split
      · split <;> rfl
      · rfl
  | selectBranch id => rfl
  | selectPriority p =>
      simp only [dispatch]
      split <;> rfl
  | selectCartridge id => rfl
  | enterQuantity text =>
      simp only [dispatch]
      split <;> rfl
  | enterComment text =>
      simp only [dispatch]
      split
      · exact handle_comment_input_db db s text
      · rfl
  | confirm yes =>
      cases yes with
      | true => exact absurd rfl h
      | false => simp [dispatch, handle_confirm]

/-- Running any event sequence free of `Confirm(true)` returns the store
it started from. -/
theorem runEvents_db_eq (uid : Nat) (evs : List Event) :
    ∀ (db : DBState) (s : Session), Event.confirm true ∉ evs →
      (runEvents db uid s evs).2 = db := by
  induction evs with
  | nil => intro db s _; rfl
  | cons e rest ih =>
      intro db s h
      have he : e ≠ .confirm true := by
        intro hee
        exact h (hee ▸ List.mem_cons_self e rest)
      unfold runEvents
      rw [dispatch_preserves_db db s uid e he]
      exact ih db _ (fun hm => h (List.mem_cons_of_mem _ hm))

/-- Claim C7.  For every sequence of conversational events that contains
no `Confirm(true)`, nothing is written to the durable store: the
requests, request_items and logs tables after the run are exactly those
before it — every intermediate step mutates only the in-memory
session. -/
theorem no_store_writes_without_confirm (db : DBState) (uid : Nat)
    (s : Session) (evs : List Event) (h : Event.confirm true ∉ evs) :
    (runEvents db uid s evs).2.requests = db.requests ∧
    (runEvents db uid s evs).2.request_items = db.request_items ∧
    (runEvents db uid s evs).2.logs = db.logs := by
  rw [runEvents_db_eq uid evs db s h]
  exact ⟨rfl, rfl, rfl⟩

/-- Witness for `no_store_writes_without_confirm`: a full abandoned
conversation — every intake step, an invalid quantity retry, and an
explicit `Confirm(false)` — on the store `dbEmpty`. -/
theorem no_store_writes_without_confirm_witness :
    Event.confirm true ∉
      [Event.startRequest, Event.selectBranch 7, Event.selectPriority "high",
        Event.selectCartridge 3, Event.enterQuantity "abc",
        Event.enterQuantity "5", Event.enterComment "hello",
        Event.confirm false] ∧
    ((runEvents dbEmpty 42 emptySession
        [Event.startRequest, Event.selectBranch 7, Event.selectPriority "high",
          Event.selectCartridge 3, Event.enterQuantity "abc",
          Event.enterQuantity "5", Event.enterComment "hello",
          Event.confirm false]).2.requests = dbEmpty.requests ∧
      (runEvents dbEmpty 42 emptySession
        [Event.startRequest, Event.selectBranch 7, Event.selectPriority "high",
          Event.selectCartridge 3, Event.enterQuantity "abc",
          Event.enterQuantity "5", Event.enterComment "hello",
          Event.confirm false]).2.request_items = dbEmpty.request_items ∧
      (runEvents dbEmpty 42 emptySession
        [Event.startRequest, Event.selectBranch 7, Event.selectPriority "high",
          Event.selectCartridge 3, Event.enterQuantity "abc",
          Event.enterQuantity "5", Event.enterComment "hello",
          Event.confirm false]).2.logs = dbEmpty.logs) :=
  ⟨by decide,
    no_store_writes_without_confirm dbEmpty 42 emptySession
      [Event.startRequest, Event.selectBranch 7, Event.selectPriority "high",
        Event.selectCartridge 3, Event.enterQuantity "abc",
        Event.enterQuantity "5", Event.enterComment "hello",
        Event.confirm false] (by decide)⟩

/-! ## Claim C8 -/

/-- Claim C8, counterexample.  The claim states that any event not valid
for the current state is rejected with an `UnexpectedEvent` signal and
leaves the session unchanged.  With the session `sQ` in state
`entering_quantity` — whose only accepted event is the quantity text —
a `SelectBranch` callback is processed anyway: the callback handlers are
registered without any state filter (main.py:68-71) and
`handle_branch_selection` checks no state (main.py:155-178), so the
session's `branch_id` is overwritten and its state moves to
`selecting_priority`; no `UnexpectedEvent` signal exists anywhere in the
source. -/
theorem branch_callback_ignores_state_cex :
    dispatch dbEmpty sQ 42 (.selectBranch 99) =
      ({ sQ with branch_id := some 99, state := some .selecting_priority },
        dbEmpty, "⚡ Выберите приоритет заявки") ∧
    ({ sQ with branch_id := some 99, state := some .selecting_priority } : Session) ≠ sQ := by
  decide

/-- Claim C8, amended.  The two text handlers are registered under a
state filter, so outside their state the message simply matches no
handler: the session is left unchanged but no `UnexpectedEvent` (or any
other) signal is produced.  The callback handlers are registered with no
state filter and check no state themselves: in every session state a
`SelectBranch` or `SelectCartridge` event is processed, overwriting the
corresponding field and moving the state on. -/
theorem dispatch_no_state_guard (db : DBState) (s : Session) (uid : Nat)
    (text : String) (id : Nat)
    (hq : ¬ s.state = some BotState.entering_quantity)
    (hc : ¬ s.state = some BotState.adding_comment) :
    dispatch db s uid (.enterQuantity text) = (s, db, "") ∧
    dispatch db s uid (.enterComment text) = (s, db, "") ∧
    dispatch db s uid (.selectBranch id) =
      ({ s with branch_id := some id, state := some .selecting_priority },
        db, "⚡ Выберите приоритет заявки") ∧
    dispatch db s uid (.selectCartridge id) =
      ({ s with cartridge_id := some id, state := some .entering_quantity },
        db, "🔢 Введите количество") := by
  refine ⟨?_, ?_, rfl, rfl⟩
  · simp [dispatch, hq]
  · simp [dispatch, hc]

/-- The session `sQ` moved on to the confirmation prompt. -/
def sConf : Session := { sQ with state := some BotState.confirming_request }

/-- Witness for `dispatch_no_state_guard` on the session `sConf`
awaiting confirmation. -/
theorem dispatch_no_state_guard_witness :
    ¬ sConf.state = some BotState.entering_quantity ∧
    ¬ sConf.state = some BotState.adding_comment ∧
    (dispatch dbEmpty sConf 42 (.enterQuantity "5") = (sConf, dbEmpty, "") ∧
      dispatch dbEmpty sConf 42 (.enterComment "x") = (sConf, dbEmpty, "") ∧
      dispatch dbEmpty sConf 42 (.selectBranch 5) =
        ({ sConf with branch_id := some 5, state := some .selecting_priority },
          dbEmpty, "⚡ Выберите приоритет заявки") ∧
      dispatch dbEmpty sConf 42 (.selectCartridge 5) =
        ({ sConf with cartridge_id := some 5, state := some .entering_quantity },
          dbEmpty, "🔢 Введите количество")) :=
  ⟨by decide, by decide,
    dispatch_no_state_guard dbEmpty sConf 42 "5" 5 (by decide) (by decide)⟩

/-! ## Claim C9 -/

/-- A session at the comment prompt: every earlier field stored. -/
def sC : Session :=
  { state := some .adding_comment, branch_id := some 7
    priority := some "high", cartridge_id := some 3
    quantity := some 5, comment := none }

/-- The store after the committed end-to-end scenario of spec §8 on
`dbEmpty`. -/
def dbScenario : DBState :=
  { requests :=
      [{ id := 1, request_code := "REQ-1", branch_id := 7, user_id := 42
         priority := "high", status := "new", comment := none
         completed_at := false }]
    request_items := [{ request_id := 1, cartridge_type_id := 3, quantity := 5 }]
    logs :=
      [{ request_id := 1, user_id := 42, action := "created"
         from_status := none, to_status := some "new"
         note := some "Заявка создана через Telegram бота" }]
    next_request_id := 2, users := [42], branches := [7], cartridge_types := [3] }

/-- Claim C9, counterexample.  The claim states that the stored comment
is null exactly when the text is `-` **or empty**.  The source compares
against `-` only (main.py:252): on the empty input the session stores the
raw empty string, not null, and moves on to confirmation with it. -/
theorem empty_comment_stored_raw_cex :
    (handle_comment_input dbEmpty sC "").1.comment = some (some "") ∧
    (handle_comment_input dbEmpty sC "").1.state = some .confirming_request ∧
    some (some "") ≠ some (none : Option String) := by
  decide

/-- Claim C9, amended.  The stored comment is null exactly when the text
is `-`; every other text, the empty string included, is stored raw.  The
end-to-end flow `StartRequest, SelectBranch 7, SelectPriority high,
SelectCartridge 3, EnterQuantity 5, EnterComment -, Confirm true` on
`dbEmpty` commits a request with `comment = null`, `priority = high`,
`status = new`, one item `(3, 5)` and one `created` LogEntry. -/
theorem comment_null_iff_dash (db : DBState) (s : Session) (text : String)
    (b c : Nat) (hb : s.branch_id = some b) (hc : s.cartridge_id = some c)
    (hbm : b ∈ db.branches) (hcm : c ∈ db.cartridge_types) :
    (handle_comment_input db s text).1.comment =
      some (if text = "-" then none else some text) ∧
    ((handle_comment_input db s text).1.comment = some none ↔ text = "-") ∧
    runEvents dbEmpty 42 emptySession
        [Event.startRequest, Event.selectBranch 7, Event.selectPriority "high",
          Event.selectCartridge 3, Event.enterQuantity "5",
          Event.enterComment "-", Event.confirm true] =
      (emptySession, dbScenario) := by
  have h1 : (handle_comment_input db s text).1 =
      { s with
        comment := some (if text = "-" then none else some text)
        state := some .confirming_request } := by
    unfold handle_comment_input
    dsimp only
    rw [hb, hc]
    dsimp only
    rw [if_pos ⟨hbm, hcm⟩]
  refine ⟨by rw [h1], ?_, by decide⟩
  rw [h1]
  by_cases ht : text = "-"
  · simp [ht]
  · simp [ht]

/-- Witness for `comment_null_iff_dash` on the session `sC` and the
text `ok`. -/
theorem comment_null_iff_dash_witness :
    sC.branch_id = some 7 ∧ sC.cartridge_id = some 3 ∧
    7 ∈ dbEmpty.branches ∧ 3 ∈ dbEmpty.cartridge_types ∧
    ((handle_comment_input dbEmpty sC "ok").1.comment =
        some (if "ok" = "-" then none else some "ok") ∧
      ((handle_comment_input dbEmpty sC "ok").1.comment = some none ↔ "ok" = "-") ∧
      runEvents dbEmpty 42 emptySession
          [Event.startRequest, Event.selectBranch 7, Event.selectPriority "high",
            Event.selectCartridge 3, Event.enterQuantity "5",
            Event.enterComment "-", Event.confirm true] =
        (emptySession, dbScenario)) :=
  ⟨by decide, by decide, by decide, by decide,
    comment_null_iff_dash dbEmpty sC "ok" 7 3 (by decide) (by decide)
      (by decide) (by decide)⟩

end HelpDesk
